import Mathlib

/-!
Verification of the peduncle HTTP service (src/peduncle/src/main.rs): a create-user /
delete-user CRUD layer over a relational users table. The Rust modules are embedded
shallowly: the database is explicit state (a list of rows), panics are `Option.none`,
and the error taxonomy and HTTP status mapping follow `mod errors` verbatim.
-/

/-- The User entity (main.rs, mod models): four string fields, deserialized from the
request body and mapped back from database rows by tokio_pg_mapper. -/
structure User where
  username : String
  first_name : String
  last_name : String
  pwd : String
  deriving DecidableEq, Repr

/-- A database error as seen through tokio_postgres: it may or may not carry a
SQLSTATE code (err.code() is an Option). -/
structure PGError where
  code : Option String
  deriving DecidableEq, Repr

/-- The error taxonomy (main.rs, mod errors, enum Error): NotFound, a wrapped
database error, a row-mapping error, and a pool-acquisition error carrying its
description string (what err.to_string() yields). -/
inductive Error where
  | NotFound : Error
  | PGError : PGError → Error
  | PGMError : Error
  | PoolError : String → Error
  deriving DecidableEq, Repr

/-- The body of an HTTP response: empty (HttpResponse::...().finish()), plain text
(body(err.to_string())), or the JSON serialization of a User (json(new_user)). -/
inductive Body where
  | empty : Body
  | text : String → Body
  | json : User → Body
  deriving DecidableEq, Repr

/-- Whether a response body is the empty body (empty, or empty-string text). -/
def Body.isEmpty : Body → Bool
  | .empty => true
  | .text s => s == ""
  | .json _ => false

/-- An HTTP response: a status code and a body. -/
structure HttpResponse where
  status : Nat
  body : Body
  deriving DecidableEq, Repr

/-- The status translation (main.rs lines 42-56, impl ResponseError for Error).
`none` models the panic of err.code().unwrap() when the database error carries no
SQLSTATE code; otherwise code "23505" yields Conflict (409) and any other code
InternalServerError (500). NotFound yields 404, PoolError 500 with the description
as the body, and the residual arm (PGMError) 500 with an empty body. -/
def Error.error_response : Error → Option HttpResponse
  | .NotFound => some ⟨404, .empty⟩
  | .PoolError err => some ⟨500, .text err⟩
  | .PGError e =>
      match e.code with
      | none => none
      | some c => if c = "23505" then some ⟨409, .empty⟩ else some ⟨500, .empty⟩
  | .PGMError => some ⟨500, .empty⟩

/-- A database row as tokio_pg_mapper sees it: named columns with (string) values. -/
structure Row where
  cols : List (String × String)
  deriving DecidableEq, Repr

/-- Row-to-entity conversion (User::from_row_ref, derived by PostgresMapper): looks
each of the four declared fields up by column name; `none` when a column is missing
(a malformed row shape). -/
def User.from_row_ref (r : Row) : Option User := do
  let username ← r.cols.lookup "username"
  let first_name ← r.cols.lookup "first_name"
  let last_name ← r.cols.lookup "last_name"
  let pwd ← r.cols.lookup "pwd"
  some ⟨username, first_name, last_name, pwd⟩

/-- The row the database returns for a freshly inserted user (RETURNING the four
fields, in the entity's declared column order). -/
def rowOfUser (u : User) : Row :=
  ⟨[("username", u.username), ("first_name", u.first_name),
    ("last_name", u.last_name), ("pwd", u.pwd)]⟩

/-- Whether a users table already contains a row with the given username. -/
def hasUsername (tbl : List User) (un : String) : Bool :=
  tbl.any (fun v => v.username == un)

/-- Modelled from the spec: the SQL template src/sql/add_user.sql is referenced by
include_str! but absent from src/. Per sections 4.1 and 6 it is an INSERT of the four
user fields with RETURNING, against a users table whose username column carries a
unique constraint; a duplicate username surfaces as a database error with SQLSTATE
23505 and leaves the table unchanged, and a fresh username appends the row and
returns it. -/
def execInsert (tbl : List User) (u : User) :
    List User × Except PGError (List Row) :=
  if hasUsername tbl u.username then
    (tbl, .error ⟨some "23505"⟩)
  else
    (tbl ++ [u], .ok [rowOfUser u])

/-- Modelled from the spec: the SQL template src/sql/del_user.sql is referenced by
include_str! but absent from src/. Per section 4.1 it is a DELETE keyed on username:
it removes every row with that username, returns no rows, and succeeds whether or not
a matching row existed. -/
def execDelete (tbl : List User) (un : String) :
    List User × Except PGError (List Row) :=
  (tbl.filter (fun v => v.username != un), .ok [])

/-- Conversion of the returned rows, as db::add_user performs it (lines 84-86):
map User::from_row_ref over the rows and collect; the .unwrap() inside the map makes
any single conversion failure a panic, modelled as `none`. -/
def mapRows : List Row → Option (List User)
  | [] => some []
  | r :: rs =>
      match User.from_row_ref r, mapRows rs with
      | some u, some us => some (u :: us)
      | _, _ => none

/-- Embeds db::add_user (main.rs lines 66-89) as a function of the statement-prepare
outcome and the outcome of executing the prepared INSERT. `none` is a panic: the
.unwrap() on prepare failure, and the .unwrap() inside the row-conversion map. An
execution error is wrapped as Error::PGError by the ? operator; on success the
collected rows are popped (Vec::pop takes the LAST element), with NotFound when no
row came back. -/
def db.add_user (prepareOk : Bool) (qr : Except PGError (List Row)) :
    Option (Except Error User) :=
  if prepareOk then
    match qr with
    | .error e => some (.error (.PGError e))
    | .ok rows =>
        match mapRows rows with
        | none => none
        | some users =>
            match users.getLast? with
            | none => some (.error .NotFound)
            | some u => some (.ok u)
  else none

/-- Embeds db::del_user (main.rs lines 91-100): panic (`none`) on prepare failure,
Error::PGError on execution failure, and Ok(()) otherwise, with the query result
discarded. -/
def db.del_user (prepareOk : Bool) (qr : Except PGError (List Row)) :
    Option (Except Error Unit) :=
  if prepareOk then
    match qr with
    | .error e => some (.error (.PGError e))
    | .ok _ => some (.ok ())
  else none

/-- Embeds handlers::add_user (main.rs lines 115-124) end to end against the modelled
database state. Pool acquisition is an Except whose error is the description string;
on failure the handler returns Err(Error::PoolError(..)), which actix renders through
error_response. Otherwise the INSERT runs against the table and db::add_user's result
is rendered: a panic stays a panic (`none`), an error goes through error_response,
and success is 200 with the created user as the JSON body. The returned pair is the
resulting table state and the response. -/
def handlers.add_user (pool : Except String Unit) (prepareOk : Bool)
    (tbl : List User) (u : User) : List User × Option HttpResponse :=
  match pool with
  | .error msg => (tbl, Error.error_response (.PoolError msg))
  | .ok _ =>
      let res := execInsert tbl u
      match db.add_user prepareOk res.2 with
      | none => (res.1, none)
      | some (.error e) => (res.1, e.error_response)
      | some (.ok newUser) => (res.1, some ⟨200, .json newUser⟩)

/-- Embeds handlers::del_user (main.rs lines 126-134) end to end against the modelled
database state: pool failure renders PoolError, otherwise the DELETE runs and success
is 200 with an empty body (HttpResponse::Ok().finish()). -/
def handlers.del_user (pool : Except String Unit) (prepareOk : Bool)
    (tbl : List User) (un : String) : List User × Option HttpResponse :=
  match pool with
  | .error msg => (tbl, Error.error_response (.PoolError msg))
  | .ok _ =>
      let res := execDelete tbl un
      match db.del_user prepareOk res.2 with
      | none => (res.1, none)
      | some (.error e) => (res.1, e.error_response)
      | some (.ok _) => (res.1, some ⟨200, .empty⟩)

/-- A concrete user for witnesses. -/
def aliceU : User := ⟨"alice", "Alice", "A", "x"⟩

/-- A second concrete user for witnesses. -/
def bobU : User := ⟨"bob", "Bob", "B", "y"⟩

/-- Converting the row returned for a freshly inserted user gives back that user. -/
theorem from_row_ref_rowOfUser (u : User) :
    User.from_row_ref (rowOfUser u) = some u := rfl

/-- Filtering out a username that no row carries leaves the table unchanged. -/
theorem filter_ne_of_not_has (tbl : List User) (un : String)
    (h : hasUsername tbl un = false) :
    tbl.filter (fun v => v.username != un) = tbl := by
  induction tbl with
  | nil => rfl
  | cons x xs ih =>
      simp [hasUsername, List.any_cons] at h
      simp [List.filter_cons, h.1, ih, hasUsername, h.2]
      exact h.2

/-- Filtering with the same predicate twice equals filtering once. -/
theorem filter_idem {α : Type} (p : α → Bool) (l : List α) :
    (l.filter p).filter p = l.filter p := by
  induction l with
  | nil => rfl
  | cons x xs ih => cases hp : p x <;> simp [List.filter_cons, hp, ih]

/-- A row whose conversion fails makes the whole collected conversion a panic. -/
theorem mapRows_none_of_mem (r : Row) (rows : List Row)
    (hr : User.from_row_ref r = none) (hmem : r ∈ rows) :
    mapRows rows = none := by
  induction rows with
  | nil => cases hmem
  | cons x xs ih =>
      cases hmem with
      | head => simp [mapRows, hr]
      | tail _ hm => cases hx : User.from_row_ref x <;> simp [mapRows, hx, ih hm]

/-- C1: for every valid user payload whose username is not already present in the
users table, the create-user handler returns status 200 with a JSON body whose four
fields equal the input payload's fields exactly (and the table now holds that row). -/
theorem create_user_fresh_ok (tbl : List User) (u : User)
    (h : hasUsername tbl u.username = false) :
    handlers.add_user (.ok ()) true tbl u = (tbl ++ [u], some ⟨200, .json u⟩) := by
  simp [handlers.add_user, execInsert, h, db.add_user, mapRows, from_row_ref_rowOfUser]

theorem create_user_fresh_ok_witness :
    handlers.add_user (.ok ()) true [] aliceU = ([aliceU], some ⟨200, .json aliceU⟩) :=
  create_user_fresh_ok [] aliceU (by decide)

/-- C2: a database error carrying SQLSTATE 23505 (duplicate username) is rendered as
status 409 and any database error carrying a different SQLSTATE code as status 500;
the insert's execution failure is wrapped as the PGError kind by db::add_user. -/
theorem dup_code_409_other_500 (c : String) (e : PGError) (hc : c ≠ "23505") :
    Error.error_response (.PGError ⟨some "23505"⟩) = some ⟨409, .empty⟩ ∧
    Error.error_response (.PGError ⟨some c⟩) = some ⟨500, .empty⟩ ∧
    db.add_user true (.error e) = some (.error (.PGError e)) := by
  refine ⟨rfl, ?_, rfl⟩
  simp [Error.error_response, hc]

theorem dup_code_409_other_500_witness :
    Error.error_response (.PGError ⟨some "23505"⟩) = some ⟨409, .empty⟩ ∧
    Error.error_response (.PGError ⟨some "40001"⟩) = some ⟨500, .empty⟩ ∧
    db.add_user true (.error ⟨some "40001"⟩) = some (.error (.PGError ⟨some "40001"⟩)) :=
  dup_code_409_other_500 "40001" ⟨some "40001"⟩ (by decide)

/-- C3: for every username the delete-user handler returns status 200 with an empty
body; deleting a nonexistent username changes no rows, and repeating the same delete
is idempotent (same table, same response). -/
theorem del_user_200_idempotent (tbl : List User) (un : String) :
    (handlers.del_user (.ok ()) true tbl un).2 = some ⟨200, .empty⟩ ∧
    (hasUsername tbl un = false → (handlers.del_user (.ok ()) true tbl un).1 = tbl) ∧
    handlers.del_user (.ok ()) true (handlers.del_user (.ok ()) true tbl un).1 un =
      handlers.del_user (.ok ()) true tbl un := by
  refine ⟨rfl, ?_, ?_⟩
  · intro h; exact filter_ne_of_not_has tbl un h
  · simp [handlers.del_user, execDelete, db.del_user, filter_idem]

theorem del_user_200_idempotent_witness :
    (handlers.del_user (.ok ()) true [aliceU] "bob").2 = some ⟨200, .empty⟩ ∧
    (handlers.del_user (.ok ()) true [aliceU] "bob").1 = [aliceU] ∧
    handlers.del_user (.ok ()) true
        (handlers.del_user (.ok ()) true [aliceU] "bob").1 "bob" =
      handlers.del_user (.ok ()) true [aliceU] "bob" :=
  ⟨(del_user_200_idempotent [aliceU] "bob").1,
   (del_user_200_idempotent [aliceU] "bob").2.1 (by decide),
   (del_user_200_idempotent [aliceU] "bob").2.2⟩

/-- C4: an insert that executes successfully but returns zero rows yields the
NotFound error kind, and the HTTP layer maps NotFound to status 404. -/
theorem insert_zero_rows_notfound_404 :
    db.add_user true (.ok []) = some (.error .NotFound) ∧
    Error.error_response .NotFound = some ⟨404, .empty⟩ := ⟨rfl, rfl⟩

/-- C5: when pool-client acquisition fails, both handlers return status 500 with a
non-empty plain-text body holding the underlying error description; the remaining
error kinds other than NotFound (a database error with a SQLSTATE code, and the
mapping error) produce responses with an empty body. -/
theorem pool_error_500_detail (msg : String) (tbl : List User) (u : User)
    (un c : String) (h : msg ≠ "") :
    handlers.add_user (.error msg) true tbl u = (tbl, some ⟨500, .text msg⟩) ∧
    handlers.del_user (.error msg) true tbl un = (tbl, some ⟨500, .text msg⟩) ∧
    (Body.text msg).isEmpty = false ∧
    (∀ r : HttpResponse, Error.error_response (.PGError ⟨some c⟩) = some r →
      r.body = Body.empty) ∧
    Error.error_response .PGMError = some ⟨500, .empty⟩ := by
  refine ⟨rfl, rfl, ?_, ?_, rfl⟩
  · simp [Body.isEmpty, h]
  · intro r hr
    by_cases hc : c = "23505" <;> simp [Error.error_response, hc] at hr <;>
      simp [← hr]

theorem pool_error_500_detail_witness :
    handlers.add_user (.error "pool timed out") true [] aliceU
      = ([], some ⟨500, .text "pool timed out"⟩) ∧
    handlers.del_user (.error "pool timed out") true [] "alice"
      = ([], some ⟨500, .text "pool timed out"⟩) ∧
    (Body.text "pool timed out").isEmpty = false ∧
    (⟨500, Body.empty⟩ : HttpResponse).body = Body.empty ∧
    Error.error_response .PGMError = some ⟨500, .empty⟩ :=
  have h := pool_error_500_detail "pool timed out" [] aliceU "alice" "08000" (by decide)
  ⟨h.1, h.2.1, h.2.2.1, h.2.2.2.1 ⟨500, Body.empty⟩ (by decide), h.2.2.2.2⟩

/-- C6 counterexample: a returned row whose conversion fails (here: a row with no
columns) does not make insert-user surface the MappingError kind: the .unwrap()
inside the conversion map panics instead (the result is `none`, not an error
value). -/
theorem conversion_failure_not_mapping_error :
    db.add_user true (.ok [Row.mk []]) = none ∧
    ¬ db.add_user true (.ok [Row.mk []]) = some (.error .PGMError) := by
  refine ⟨rfl, ?_⟩
  intro hc
  simp [db.add_user, mapRows, User.from_row_ref] at hc

/-- C6 amended: whenever row-to-entity conversion of a returned row fails, insert-user
panics (aborts the handling task) rather than surfacing the MappingError kind; the
HTTP layer does map the MappingError kind to status 500. -/
theorem conversion_failure_panics (r : Row) (rows : List Row)
    (hr : User.from_row_ref r = none) (hmem : r ∈ rows) :
    db.add_user true (.ok rows) = none ∧
    Error.error_response .PGMError = some ⟨500, .empty⟩ := by
  refine ⟨?_, rfl⟩
  simp [db.add_user, mapRows_none_of_mem r rows hr hmem]

theorem conversion_failure_panics_witness :
    db.add_user true (.ok [Row.mk [("username", "alice")]]) = none ∧
    Error.error_response .PGMError = some ⟨500, .empty⟩ :=
  conversion_failure_panics (Row.mk [("username", "alice")])
    [Row.mk [("username", "alice")]] (by decide) (by decide)

/-- C7: for both data-access operations, a statement-preparation failure is an
unconditional panic (`none`): no typed error value and no HTTP response is
produced, whatever the rest of the interaction would have yielded. -/
theorem prepare_failure_panics (qr qrDel : Except PGError (List Row)) :
    db.add_user false qr = none ∧ db.del_user false qrDel = none := ⟨rfl, rfl⟩

/-- C8: a create-user request whose username is already present returns status 409
and the table — in particular the pre-existing row with that username — is
unchanged. -/
theorem create_user_conflict_no_mutation (tbl : List User) (u : User)
    (h : hasUsername tbl u.username = true) :
    handlers.add_user (.ok ()) true tbl u = (tbl, some ⟨409, .empty⟩) := by
  simp [handlers.add_user, execInsert, h, db.add_user, Error.error_response]

theorem create_user_conflict_no_mutation_witness :
    handlers.add_user (.ok ()) true [aliceU] aliceU = ([aliceU], some ⟨409, .empty⟩) :=
  create_user_conflict_no_mutation [aliceU] aliceU (by decide)

/-- C9: rendering a database error that carries no SQLSTATE code panics (the
code().unwrap() in error_response), so the other-database-failure-yields-500 mapping
holds exactly when a SQLSTATE code is present. -/
theorem missing_sqlstate_panics (c : String) (hc : c ≠ "23505") :
    Error.error_response (.PGError ⟨none⟩) = none ∧
    Error.error_response (.PGError ⟨some c⟩) = some ⟨500, .empty⟩ := by
  refine ⟨rfl, ?_⟩
  simp [Error.error_response, hc]

theorem missing_sqlstate_panics_witness :
    Error.error_response (.PGError ⟨none⟩) = none ∧
    Error.error_response (.PGError ⟨some "08006"⟩) = some ⟨500, .empty⟩ :=
  missing_sqlstate_panics "08006" (by decide)

/-- C10: when the insert's execution returns several rows, insert-user converts every
row and returns the LAST element of the collected vector (Vec::pop), not the first. -/
theorem multi_row_insert_returns_last (rows : List Row) (users : List User) (u : User)
    (hm : mapRows rows = some users) (hl : users.getLast? = some u) :
    db.add_user true (.ok rows) = some (.ok u) := by
  simp [db.add_user, hm, hl]

theorem multi_row_insert_returns_last_witness :
    db.add_user true (.ok [rowOfUser aliceU, rowOfUser bobU]) = some (.ok bobU) :=
  multi_row_insert_returns_last [rowOfUser aliceU, rowOfUser bobU] [aliceU, bobU] bobU
    (by decide) (by decide)
